import Mathlib

/-!
Verification of the Heart-Disease-Risk-Assessment scoring pipeline.

The definitions below are a shallow embedding of the two Python sources:
`app.py` (the Streamlit application: form inputs, feature assembly,
scaling, probability inference, tier classification, outputs) and
`src/train_model.py` (the feature schema used at fitting time).
Real-valued quantities that the program manipulates exactly are modelled
over `ℚ`; the logistic link of the fitted model is modelled over `ℝ`.
-/

namespace HeartRisk

/-- Discrete risk tier (Low/Moderate/High). -/
inductive Tier where
  | Low
  | Moderate
  | High
deriving DecidableEq, Repr

/-- Rank of a tier for monotonicity statements: Low < Moderate < High. -/
def Tier.toNat : Tier → Nat
  | .Low => 0
  | .Moderate => 1
  | .High => 2

/-- Result-display tier classification, app.py lines 507-527:
`if prob < 20: Low / elif prob < 50: Moderate / else: High`. -/
def risk_level_display (prob : ℚ) : Tier :=
  if prob < 20 then .Low
  else if prob < 50 then .Moderate
  else .High

/-- Prediction-history tier classification, app.py line 440:
`'High' if prob > 50 else 'Moderate' if prob > 20 else 'Low'`. -/
def risk_level_history (prob : ℚ) : Tier :=
  if prob > 50 then .High
  else if prob > 20 then .Moderate
  else .Low

/-- C1: the claim says exactly 20.0 maps to Moderate and exactly 50.0 to High
in every place the program maps a probability to a tier. The display path
does satisfy this, but the prediction-history path uses strict `>` and
assigns the boundary values to the lower tier: 20.0 goes to Low and 50.0 to
Moderate, so the same probability receives two different tiers in one run.
This theorem evaluates both code paths at the boundary inputs. -/
theorem tier_boundary_divergence :
    risk_level_display 20 = Tier.Moderate ∧
    risk_level_display 50 = Tier.High ∧
    risk_level_display (19999/1000) = Tier.Low ∧
    risk_level_display (49999/1000) = Tier.Moderate ∧
    risk_level_history 20 = Tier.Low ∧
    risk_level_history 50 = Tier.Moderate ∧
    risk_level_history (19999/1000) = Tier.Low ∧
    risk_level_history (49999/1000) = Tier.Moderate := by
  refine ⟨?_, ?_, ?_, ?_, ?_, ?_, ?_, ?_⟩ <;>
    · simp only [risk_level_display, risk_level_history]
      norm_num

/-- C4: both tier-classification paths are pure functions of the probability
alone and are monotone: for p₁ ≤ p₂ the tier of p₂ is never lower than the
tier of p₁ in the ordering Low < Moderate < High. -/
theorem tier_monotone (p₁ p₂ : ℚ) (h : p₁ ≤ p₂) :
    (risk_level_display p₁).toNat ≤ (risk_level_display p₂).toNat ∧
    (risk_level_history p₁).toNat ≤ (risk_level_history p₂).toNat := by
  constructor <;>
    · simp only [risk_level_display, risk_level_history]
      split_ifs <;> simp [Tier.toNat] <;> linarith

/-- Witness for C4 at the concrete pair (10, 30). -/
theorem tier_monotone_witness :
    (risk_level_display 10).toNat ≤ (risk_level_display 30).toNat ∧
    (risk_level_history 10).toNat ≤ (risk_level_history 30).toNat :=
  tier_monotone 10 30 (by norm_num)

/-- Exercise frequency options of the form selectbox, app.py lines 378-379. -/
inductive ExerciseFrequency where
  | sedentary
  | light
  | moderate
  | active
deriving DecidableEq, Repr

/-- Medication options of the form multiselect, app.py lines 409-411. -/
inductive Medication where
  | bloodPressureMed
  | cholesterolMed
  | bloodThinners
  | diabetesMed
  | other
deriving DecidableEq, Repr

/-- All inputs collected by the prediction form, app.py lines 333-414.
Selectboxes with Yes/No (or Male/Female) options are modelled as `Bool`;
numeric widgets as `ℚ`. -/
structure FormState where
  age : ℚ
  male : Bool
  height : ℚ
  weight : ℚ
  currentSmoker : Bool
  cigsPerDay : ℚ
  exercise_frequency : ExerciseFrequency
  family_history : Bool
  totChol : ℚ
  sysBP : ℚ
  diaBP : ℚ
  heartRate : ℚ
  glucose : ℚ
  diabetes : Bool
  prevalentHyp : Bool
  medications : List Medication
deriving DecidableEq

/-- The 0/1 encoding of the Yes/No selectboxes, app.py lines 419-422. -/
def encode (b : Bool) : ℚ := if b then 1 else 0

/-- BMI as the code computes it, app.py line 351:
`BMI = weight / ((height/100) ** 2)`. -/
def BMI (height weight : ℚ) : ℚ := weight / ((height / 100) ^ 2)

/-- The input array handed to the scaler, app.py lines 425-427:
`X = np.array([[age, male_val, currentSmoker_val, cigsPerDay, totChol,
sysBP, diaBP, BMI, heartRate, glucose, diabetes_val, prevalentHyp_val]])`. -/
def X (s : FormState) : List ℚ :=
  [s.age, encode s.male, encode s.currentSmoker, s.cigsPerDay, s.totChol,
   s.sysBP, s.diaBP, BMI s.height s.weight, s.heartRate, s.glucose,
   encode s.diabetes, encode s.prevalentHyp]

/-- Names of the dataset columns used as features. -/
inductive Feature where
  | age
  | male
  | currentSmoker
  | cigsPerDay
  | totChol
  | sysBP
  | diaBP
  | BMI
  | heartRate
  | glucose
  | diabetes
  | prevalentHyp
deriving DecidableEq, Repr

/-- The feature-column order used when the scaler and model were fitted,
src/train_model.py lines 18-21. -/
def FEATURES : List Feature :=
  [.age, .male, .currentSmoker, .cigsPerDay, .totChol, .sysBP,
   .diaBP, .BMI, .heartRate, .glucose, .diabetes, .prevalentHyp]

/-- The value a form submission supplies for each named feature column
(the semantic link between the form fields and the dataset columns). -/
def featureValue (s : FormState) : Feature → ℚ
  | .age => s.age
  | .male => encode s.male
  | .currentSmoker => encode s.currentSmoker
  | .cigsPerDay => s.cigsPerDay
  | .totChol => s.totChol
  | .sysBP => s.sysBP
  | .diaBP => s.diaBP
  | .BMI => BMI s.height s.weight
  | .heartRate => s.heartRate
  | .glucose => s.glucose
  | .diabetes => encode s.diabetes
  | .prevalentHyp => encode s.prevalentHyp

/-- C6: the feature vector handed to the scaler and model always has exactly
12 elements, and its order coincides with the training-time feature order
`FEATURES` of src/train_model.py: entry i of `X s` is the value of feature
`FEATURES[i]`. -/
theorem feature_vector_schema (s : FormState) :
    (X s).length = 12 ∧ X s = FEATURES.map (featureValue s) :=
  ⟨rfl, rfl⟩

/-- C5: BMI is computed as weight divided by the square of (height/100) —
slot 7 of the feature vector is exactly that quotient — and at
height = 170 cm, weight = 70 kg the computed BMI is within ±0.05 of 24.2. -/
theorem bmi_formula_and_value :
    (∀ s : FormState, (X s).getD 7 0 = s.weight / ((s.height / 100) ^ 2)) ∧
    |BMI 170 70 - 242/10| ≤ 5/100 := by
  constructor
  · intro s
    rfl
  · rw [BMI, abs_le]
    norm_num

/-- The form's default values (app.py lines 341-411): age 50, Male,
170 cm, 70 kg, non-smoker, 0 cigarettes, sedentary, no family history,
cholesterol 200, BP 120/80, heart rate 70, glucose 90, no diabetes, no
hypertension, no medications. -/
def sDefault : FormState :=
  { age := 50, male := true, height := 170, weight := 70,
    currentSmoker := false, cigsPerDay := 0,
    exercise_frequency := .sedentary, family_history := false,
    totChol := 200, sysBP := 120, diaBP := 80, heartRate := 70,
    glucose := 90, diabetes := false, prevalentHyp := false,
    medications := [] }

/-- Fitted StandardScaler parameters: per-feature mean and scale vectors of
length 12 (the scaler artifact loaded at app.py lines 30-43). -/
structure ScalerParams where
  mean : Fin 12 → ℚ
  scale : Fin 12 → ℚ

/-- Fitted logistic-regression parameters: coefficient vector of length 12
and intercept (the model artifact loaded at app.py lines 30-43). -/
structure ScoringModel where
  coef : Fin 12 → ℚ
  intercept : ℚ

/-- A numpy floating-point value as far as zero division is concerned:
either an ordinary finite value or a non-finite result (±inf or NaN). -/
inductive NpVal where
  | val : ℚ → NpVal
  | nonfinite : NpVal
deriving DecidableEq, Repr

/-- numpy elementwise division: dividing by zero emits a runtime warning and
yields ±inf (or NaN for 0/0); it raises no exception. -/
def npDiv (a b : ℚ) : NpVal :=
  if b = 0 then .nonfinite else .val (a / b)

/-- `scaler.transform(X)` (app.py line 431) under numpy semantics:
elementwise `(x[i] - mean[i]) / scale[i]`, with no guard of any kind. -/
def transform (sc : ScalerParams) (x : Fin 12 → ℚ) : Fin 12 → NpVal :=
  fun i => npDiv (x i - sc.mean i) (sc.scale i)

/-- The feature vector as a 12-index map (row 0 of the numpy array `X`). -/
def Xf (s : FormState) : Fin 12 → ℚ :=
  fun i => (X s).getD i 0

/-- A degenerate scaler whose scale entry for feature 0 is zero. -/
def scDegenerate : ScalerParams :=
  ⟨fun _ => 0, fun i => if i = 0 then 0 else 1⟩

/-- C2 counterexample: with a scaler whose scale[0] = 0, the scoring step
performs the division silently and standardized feature 0 is non-finite;
no ScoringError is raised — the code contains no such guard or error type,
refuting the claim that it never yields an infinite/NaN standardized
feature. -/
theorem degenerate_scaler_counterexample :
    scDegenerate.scale 0 = 0 ∧
    transform scDegenerate (Xf sDefault) 0 = NpVal.nonfinite := by
  constructor
  · rfl
  · simp [transform, npDiv, scDegenerate]

/-- C2 amended: a scaler with scale[i] = 0 does not raise any error — the
division proceeds silently and standardized feature i is non-finite (±inf
or NaN); every feature with a nonzero scale standardizes to the finite
quotient (x[i] - mean[i]) / scale[i]. -/
theorem transform_degenerate (sc : ScalerParams) (x : Fin 12 → ℚ) (i : Fin 12) :
    (sc.scale i = 0 → transform sc x i = NpVal.nonfinite) ∧
    (sc.scale i ≠ 0 →
      transform sc x i = NpVal.val ((x i - sc.mean i) / sc.scale i)) := by
  constructor <;> intro h <;> simp [transform, npDiv, h]

/-- Witness for the amended C2 at the degenerate scaler: feature 0 (scale 0)
comes out non-finite, feature 1 (scale 1) comes out finite. -/
theorem transform_degenerate_witness :
    transform scDegenerate (Xf sDefault) 0 = NpVal.nonfinite ∧
    transform scDegenerate (Xf sDefault) 1
      = NpVal.val ((Xf sDefault 1 - scDegenerate.mean 1) / scDegenerate.scale 1) :=
  ⟨(transform_degenerate scDegenerate (Xf sDefault) 0).1 (by norm_num [scDegenerate]),
   (transform_degenerate scDegenerate (Xf sDefault) 1).2 (by norm_num [scDegenerate])⟩

/-- Standardization when no scale entry is zero (the exact rational value of
`scaler.transform` on a non-degenerate scaler). -/
def standardize (sc : ScalerParams) (x : Fin 12 → ℚ) : Fin 12 → ℚ :=
  fun i => (x i - sc.mean i) / sc.scale i

/-- The linear decision function of the fitted logistic model. -/
def logitScore (m : ScoringModel) (z : Fin 12 → ℚ) : ℚ :=
  (∑ i, m.coef i * z i) + m.intercept

/-- The logistic link. -/
noncomputable def sigmoid (t : ℝ) : ℝ :=
  1 / (1 + Real.exp (-t))

/-- `model.predict_proba(X_scaled)[0][1]` for a binary sklearn logistic
regression: the sigmoid of the decision function (app.py line 433 before
the `* 100`). -/
noncomputable def predict_proba1 (m : ScoringModel) (z : Fin 12 → ℚ) : ℝ :=
  sigmoid (logitScore m z)

/-- `prob` as the app computes it (app.py line 433): the class-1 probability
times 100. -/
noncomputable def prob (m : ScoringModel) (sc : ScalerParams) (s : FormState) : ℝ :=
  predict_proba1 m (standardize sc (Xf s)) * 100

/-- The stated input ranges of the form widgets (app.py lines 341-397). -/
def FormState.valid (s : FormState) : Prop :=
  1 ≤ s.age ∧ s.age ≤ 120 ∧
  100 ≤ s.height ∧ s.height ≤ 250 ∧
  30 ≤ s.weight ∧ s.weight ≤ 300 ∧
  0 ≤ s.cigsPerDay ∧ s.cigsPerDay ≤ 100 ∧
  100 ≤ s.totChol ∧ s.totChol ≤ 400 ∧
  80 ≤ s.sysBP ∧ s.sysBP ≤ 250 ∧
  60 ≤ s.diaBP ∧ s.diaBP ≤ 200 ∧
  40 ≤ s.heartRate ∧ s.heartRate ≤ 200 ∧
  50 ≤ s.glucose ∧ s.glucose ≤ 400

/-- A valid scaler artifact: no per-feature scale is zero. -/
def ScalerParams.nondegenerate (sc : ScalerParams) : Prop :=
  ∀ i, sc.scale i ≠ 0

theorem sigmoid_pos (t : ℝ) : 0 < sigmoid t := by
  rw [sigmoid]
  positivity

theorem sigmoid_le_one (t : ℝ) : sigmoid t ≤ 1 := by
  rw [sigmoid, div_le_one (by positivity)]
  linarith [Real.exp_pos (-t)]

/-- C3: for every form submission within the stated ranges and every
non-degenerate artifact pair, the computed probabilityPercent lies in
[0, 100] inclusive (a real number, hence finite and never NaN). -/
theorem prob_in_range (m : ScoringModel) (sc : ScalerParams) (s : FormState)
    (hs : s.valid) (hsc : sc.nondegenerate) :
    0 ≤ prob m sc s ∧ prob m sc s ≤ 100 := by
  have h1 := sigmoid_pos ((logitScore m (standardize sc (Xf s)) : ℚ) : ℝ)
  have h2 := sigmoid_le_one ((logitScore m (standardize sc (Xf s)) : ℚ) : ℝ)
  rw [prob, predict_proba1]
  constructor <;> linarith

/-- The identity scaler (mean 0, scale 1). -/
def scId : ScalerParams := ⟨fun _ => 0, fun _ => 1⟩

/-- The zero model (all coefficients 0, intercept 0). -/
def mZero : ScoringModel := ⟨fun _ => 0, 0⟩

/-- Witness for C3 at the form defaults with the identity scaler and zero
model. -/
theorem prob_in_range_witness :
    0 ≤ prob mZero scId sDefault ∧ prob mZero scId sDefault ≤ 100 :=
  prob_in_range mZero scId sDefault
    (by norm_num [FormState.valid, sDefault])
    (fun i => by norm_num [scId])

/-- The errors a Python evaluation of the BMI line could surface.
ValidationError never occurs anywhere in app.py; it is listed here only so
the claim about it is statable. -/
inductive PyErr where
  | zeroDivisionError
  | validationError
deriving DecidableEq, Repr

/-- Python evaluation of `BMI = weight / ((height/100) ** 2)` (app.py
line 351): true division raises ZeroDivisionError when the divisor is
zero; there is no other check. -/
def computeBMI (height weight : ℚ) : Except PyErr ℚ :=
  if (height / 100) ^ 2 = 0 then .error .zeroDivisionError
  else .ok (weight / (height / 100) ^ 2)

/-- A Streamlit number_input widget: minimum, maximum and default value.
The widget accepts exactly the values between its minimum and maximum. -/
structure NumberInput where
  minVal : ℚ
  maxVal : ℚ
  defaultVal : ℚ
deriving DecidableEq, Repr

def NumberInput.accepts (w : NumberInput) (v : ℚ) : Prop :=
  w.minVal ≤ v ∧ v ≤ w.maxVal

/-- Height widget, app.py line 347: min 100, max 250, default 170. -/
def heightInput : NumberInput := ⟨100, 250, 170⟩

/-- Weight widget, app.py line 348: min 30, max 300, default 70. -/
def weightInput : NumberInput := ⟨30, 300, 70⟩

/-- C7 counterexample: the BMI computation does not fail with
ValidationError on non-positive inputs. At weight = 0 (non-positive) it
succeeds and returns 0, and at height = 0 it raises ZeroDivisionError, not
ValidationError. -/
theorem bmi_guard_counterexample :
    computeBMI 170 0 = Except.ok 0 ∧
    computeBMI 0 70 = Except.error PyErr.zeroDivisionError := by
  constructor
  · rw [computeBMI, if_neg (by norm_num)]
    norm_num
  · rw [computeBMI, if_pos (by norm_num)]

/-- C7 amended: app.py defines no ValidationError and no explicit guard;
instead the height and weight widgets only accept values in [100,250] and
[30,300], so both are positive on every submitted record and the BMI
division always succeeds. (A zero height would raise ZeroDivisionError;
no input ever produces a ValidationError.) -/
theorem bmi_guard_amended (h w : ℚ)
    (hh : heightInput.accepts h) (hw : weightInput.accepts w) :
    0 < h ∧ 0 < w ∧
    computeBMI h w = Except.ok (w / ((h / 100) ^ 2)) ∧
    ∀ h₀ w₀ : ℚ, computeBMI h₀ w₀ ≠ Except.error PyErr.validationError := by
  obtain ⟨hh1, -⟩ := hh
  obtain ⟨hw1, -⟩ := hw
  have hh1' : (100 : ℚ) ≤ h := hh1
  have hw1' : (30 : ℚ) ≤ w := hw1
  have hpos : (0 : ℚ) < h := by linarith
  refine ⟨hpos, by linarith, ?_, ?_⟩
  · rw [computeBMI, if_neg ?_]
    exact pow_ne_zero 2 (div_ne_zero (ne_of_gt hpos) (by norm_num))
  · intro h₀ w₀
    rw [computeBMI]
    split_ifs <;> simp

/-- Witness for the amended C7 at the default height/weight (170, 70). -/
theorem bmi_guard_amended_witness :
    computeBMI 170 70 = Except.ok (70 / ((170 / 100) ^ 2)) :=
  (bmi_guard_amended 170 70
    (by constructor <;> norm_num [heightInput])
    (by constructor <;> norm_num [weightInput])).2.2.1

/-- The cigarettes-per-day widget, app.py lines 362-375: both smoking
branches use min 0 and max 100; only the default differs (1 for smokers,
0 for non-smokers). -/
def cigsInput (smoker : Bool) : NumberInput :=
  if smoker then ⟨0, 100, 1⟩ else ⟨0, 100, 0⟩

/-- A non-smoker submission reporting 30 cigarettes per day. -/
def sNonSmoker30 : FormState := { sDefault with cigsPerDay := 30 }

/-- C8: the claim says the UI enforces cigarettesPerDay = 0 whenever
isCurrentSmoker is false. It does not: the non-smoker branch of the widget
accepts every value in [0,100] exactly like the smoker branch (only its
default is 0), so a non-smoker record with 30 cigarettes/day passes the
widget and reaches slot 3 of the feature vector unchanged. -/
theorem nonsmoker_cigs_not_enforced :
    (cigsInput false).accepts 30 ∧
    (cigsInput false).defaultVal = 0 ∧
    (cigsInput true).minVal = (cigsInput false).minVal ∧
    (cigsInput true).maxVal = (cigsInput false).maxVal ∧
    sNonSmoker30.currentSmoker = false ∧
    (X sNonSmoker30).getD 3 0 = 30 := by
  refine ⟨⟨?_, ?_⟩, rfl, rfl, rfl, rfl, rfl⟩ <;>
    norm_num [cigsInput, NumberInput.accepts]

open Classical in
/-- The result-display tier over the real-valued probability (app.py
lines 507-527). -/
noncomputable def risk_level_displayR (p : ℝ) : Tier :=
  if p < 20 then .Low
  else if p < 50 then .Moderate
  else .High

open Classical in
/-- The prediction-history tier over the real-valued probability (app.py
line 440). -/
noncomputable def risk_level_historyR (p : ℝ) : Tier :=
  if p > 50 then .High
  else if p > 20 then .Moderate
  else .Low

/-- C9: the probability and both tier computations depend only on the 12
schema features: changing the exercise-frequency, family-history and
medication inputs while keeping every other field fixed changes neither
the probability nor either tier. -/
theorem extras_do_not_influence_score (m : ScoringModel) (sc : ScalerParams)
    (s : FormState) (ef : ExerciseFrequency) (fh : Bool) (meds : List Medication) :
    prob m sc { s with exercise_frequency := ef, family_history := fh,
                       medications := meds }
      = prob m sc s ∧
    risk_level_displayR (prob m sc { s with exercise_frequency := ef,
                                            family_history := fh,
                                            medications := meds })
      = risk_level_displayR (prob m sc s) ∧
    risk_level_historyR (prob m sc { s with exercise_frequency := ef,
                                            family_history := fh,
                                            medications := meds })
      = risk_level_historyR (prob m sc s) :=
  ⟨rfl, rfl, rfl⟩

/-- The fixed recommendation lists keyed by tier, app.py lines 511-533. -/
def recommendationsFor : Tier → List String
  | .Low =>
      ["Continue maintaining healthy lifestyle habits",
       "Regular exercise and balanced diet",
       "Annual health check-ups"]
  | .Moderate =>
      ["Consider lifestyle modifications",
       "Monitor blood pressure and cholesterol regularly",
       "Discuss prevention strategies with your doctor"]
  | .High =>
      ["Immediate medical consultation recommended",
       "Consider medication if advised by physician",
       "Urgent lifestyle changes needed"]

/-- Everything a scoring run produces, app.py lines 436-590: the stored
percentage and history tier, the displayed tier, the recommendation list,
and the relative-risk and confidence labels. -/
structure Outputs where
  risk_percentage : ℝ
  history_tier : Tier
  display_tier : Tier
  recommendations : List String
  relative_risk : String
  confidence : String

open Classical in
/-- The outputs of a scoring run as functions of the quantities computed at
app.py lines 430-433: `prob` and the class label `prediction` from
`model.predict`. The label is carried as an argument exactly because it is
in scope there; lines 436-590 derive every output from `prob` alone
(`np.mean([20, 50])` at line 548 is 35). -/
noncomputable def scoringOutputs (prob : ℝ) (prediction : ℤ) : Outputs :=
  { risk_percentage := prob,
    history_tier := risk_level_historyR prob,
    display_tier := risk_level_displayR prob,
    recommendations := recommendationsFor (risk_level_displayR prob),
    relative_risk := if prob > 35 then "High" else "Average",
    confidence := if |prob - 50| > 20 then "High" else "Moderate" }

/-- C10: the class label returned by `model.predict` is computed but never
used — every output of a scoring run is determined by the probability
alone, so changing only the label changes no output. -/
theorem prediction_label_unused (p : ℝ) (l₁ l₂ : ℤ) :
    scoringOutputs p l₁ = scoringOutputs p l₂ := rfl

end HeartRisk
